import Mathlib

/-
  Verification development for the wavelength-visualizer core simulation.

  The TypeScript sources are shallowly embedded: JavaScript numbers are
  modelled as exact rationals (or reals where square roots / exponentials
  are provable facts), 32-bit unsigned wraparound is explicit `% 2^32`,
  and the platform Math functions that only matter as opaque deterministic
  maps are abstracted into a `JSMath` record.
-/

namespace Wavelength

set_option maxHeartbeats 1000000

/-- Abstraction of the deterministic platform math functions used by the
    embedded code.  JavaScript's Math.sqrt, Math.log, Math.cos are fixed
    (deterministic) maps on numbers; the only algebraic fact the embedded
    code relies on is that the square root of zero is zero. -/
structure JSMath where
  sqrt : ℚ → ℚ
  log : ℚ → ℚ
  cos : ℚ → ℚ
  pi : ℚ
  sqrt_zero : sqrt 0 = 0

/-- A concrete instance of the platform math record, used to instantiate
    universally quantified statements at concrete inputs. -/
def jmDefault : JSMath where
  sqrt := fun _ => 0
  log := fun _ => 0
  cos := fun _ => 1
  pi := 355 / 113
  sqrt_zero := rfl

/- ===================== HashSeededRNG.ts ===================== -/

/-- Internal state of HashSeededRNG: the single 32-bit `seed` field. -/
structure RNGState where
  seed : ℕ
deriving DecidableEq, Repr

/-- One LCG update, from HashSeededRNG.next:
    `this.seed = (this.seed * 1664525 + 1013904223) >>> 0`. -/
def lcgNext (seed : ℕ) : ℕ := (seed * 1664525 + 1013904223) % 4294967296

/-- HashSeededRNG.next: advances the seed by the LCG and returns
    `(this.seed >>> 0) / 0xFFFFFFFF`. -/
def RNGState.next (s : RNGState) : ℚ × RNGState :=
  ((lcgNext s.seed : ℚ) / 4294967295, ⟨lcgNext s.seed⟩)

/-- HashSeededRNG.nextRange: `min + this.next() * (max - min)`. -/
def RNGState.nextRange (s : RNGState) (mn mx : ℚ) : ℚ × RNGState :=
  let p := s.next
  (mn + p.1 * (mx - mn), p.2)

/-- HashSeededRNG.nextGaussian: Box-Muller from two uniform draws,
    `z0 = sqrt(-2 * log(u1 + 1e-10)) * cos(2 * PI * u2)`,
    returning `z0 * stdDev + mean`. -/
def RNGState.nextGaussian (s : RNGState) (jm : JSMath) (mean stdDev : ℚ) :
    ℚ × RNGState :=
  let p1 := s.next
  let p2 := p1.2.next
  let z0 := jm.sqrt (-2 * jm.log (p1.1 + 1 / 10000000000)) * jm.cos (2 * jm.pi * p2.1)
  (z0 * stdDev + mean, p2.2)

/-- HashSeededRNG.nextGaussian3D: three sequential Gaussian draws. -/
def RNGState.nextGaussian3D (s : RNGState) (jm : JSMath) (mean : ℚ × ℚ × ℚ)
    (stdDev : ℚ) : (ℚ × ℚ × ℚ) × RNGState :=
  let p1 := s.nextGaussian jm mean.1 stdDev
  let p2 := p1.2.nextGaussian jm mean.2.1 stdDev
  let p3 := p2.2.nextGaussian jm mean.2.2 stdDev
  ((p1.1, p2.1, p3.1), p3.2)

/-- One element of a call sequence against a HashSeededRNG instance. -/
inductive RNGCall where
  | nextU : RNGCall
  | range (mn mx : ℚ) : RNGCall
  | gaussian (mean stdDev : ℚ) : RNGCall
  | gaussian3D (mean : ℚ × ℚ × ℚ) (stdDev : ℚ) : RNGCall
deriving DecidableEq, Repr

/-- Execute one call, returning the emitted numbers and the new state. -/
def RNGState.runCall (s : RNGState) (jm : JSMath) : RNGCall → List ℚ × RNGState
  | .nextU => let p := s.next; ([p.1], p.2)
  | .range mn mx => let p := s.nextRange mn mx; ([p.1], p.2)
  | .gaussian m sd => let p := s.nextGaussian jm m sd; ([p.1], p.2)
  | .gaussian3D m sd =>
      let p := s.nextGaussian3D jm m sd
      ([p.1.1, p.1.2.1, p.1.2.2], p.2)

/-- Execute a whole call sequence, concatenating the output stream. -/
def RNGState.run (s : RNGState) (jm : JSMath) : List RNGCall → List ℚ
  | [] => []
  | c :: cs =>
      let p := s.runCall jm c
      p.1 ++ p.2.run jm cs

/- ===================== LorenzAttractor.ts ===================== -/

/-- The three Lorenz coefficients (LorenzParams). -/
structure LorenzParams where
  sigma : ℚ
  rho : ℚ
  beta : ℚ
deriving DecidableEq, Repr

/-- A per-call override of some of the Lorenz coefficients
    (TypeScript type Partial of LorenzParams). -/
structure LorenzOverride where
  sigma : Option ℚ
  rho : Option ℚ
  beta : Option ℚ
deriving DecidableEq, Repr

/-- Spreading an override onto current parameters:
    `this.params = { ...this.params, ...params }`. -/
def LorenzParams.merge (p : LorenzParams) (o : LorenzOverride) : LorenzParams :=
  ⟨o.sigma.getD p.sigma, o.rho.getD p.rho, o.beta.getD p.beta⟩

/-- The 3-component attractor state (AttractorState). -/
structure AttractorState where
  x : ℚ
  y : ℚ
  z : ℚ
deriving DecidableEq, Repr

/-- The Lorenz rate equations evaluated at a state:
    `(σ(y-x), x(ρ-z)-y, xy-βz)`. -/
def lorenzRate (p : LorenzParams) (st : AttractorState) : ℚ × ℚ × ℚ :=
  (p.sigma * (st.y - st.x), st.x * (p.rho - st.z) - st.y,
    st.x * st.y - p.beta * st.z)

/-- A LorenzAttractor instance: state, parameters and fixed time step. -/
structure LorenzAttractor where
  state : AttractorState
  params : LorenzParams
  dt : ℚ
deriving DecidableEq, Repr

/-- The constructor defaults: state (1,1,1), (σ,ρ,β) = (10,28,8/3), dt = 0.01. -/
def LorenzAttractor.default : LorenzAttractor :=
  ⟨⟨1, 1, 1⟩, ⟨10, 28, 8 / 3⟩, 1 / 100⟩

/-- LorenzAttractor.step: optionally merge an override into the parameters,
    evaluate the three rate equations at the current state, then advance all
    three components simultaneously by one forward-Euler increment. -/
def LorenzAttractor.step (a : LorenzAttractor) (o : Option LorenzOverride) :
    AttractorState × LorenzAttractor :=
  let ps := match o with
    | none => a.params
    | some ov => a.params.merge ov
  let d := lorenzRate ps a.state
  let st : AttractorState :=
    ⟨a.state.x + d.1 * a.dt, a.state.y + d.2.1 * a.dt, a.state.z + d.2.2 * a.dt⟩
  (st, { a with state := st, params := ps })

/-- LorenzAttractor.getDrift: optionally merge an override into the
    parameters (which persists), and return the rate vector at the current
    state without touching the state. -/
def LorenzAttractor.getDrift (a : LorenzAttractor) (o : Option LorenzOverride) :
    (ℚ × ℚ × ℚ) × LorenzAttractor :=
  let ps := match o with
    | none => a.params
    | some ov => a.params.merge ov
  (lorenzRate ps a.state, { a with params := ps })

/- ===================== CollisionAvoidance (ColorSpace.ts) ===================== -/

/-- Squared separation `dx*dx + dy*dy + dz*dz` between two 3D positions. -/
def rsq (p q : ℝ × ℝ × ℝ) : ℝ :=
  (p.1 - q.1) * (p.1 - q.1) + (p.2.1 - q.2.1) * (p.2.1 - q.2.1) +
    (p.2.2 - q.2.2) * (p.2.2 - q.2.2)

/-- The contribution of one other position inside the loop of
    CollisionAvoidance.computeForce: with `r = sqrt(rSquared + ε)` and
    `forceMagnitude = 2k / (rSquared + ε)`, each accumulated component is
    `(dᵢ / r) * forceMagnitude`. -/
noncomputable def collisionTerm (k ε : ℝ) (p q : ℝ × ℝ × ℝ) : ℝ × ℝ × ℝ :=
  ((p.1 - q.1) / Real.sqrt (rsq p q + ε) * (2 * k / (rsq p q + ε)),
   (p.2.1 - q.2.1) / Real.sqrt (rsq p q + ε) * (2 * k / (rsq p q + ε)),
   (p.2.2 - q.2.2) / Real.sqrt (rsq p q + ε) * (2 * k / (rsq p q + ε)))

/-- Componentwise sum of two 3D vectors (the `+=` accumulation). -/
def v3add (a b : ℝ × ℝ × ℝ) : ℝ × ℝ × ℝ := (a.1 + b.1, a.2.1 + b.2.1, a.2.2 + b.2.2)

/-- Componentwise negation of a 3D vector. -/
def v3neg (a : ℝ × ℝ × ℝ) : ℝ × ℝ × ℝ := (-a.1, -a.2.1, -a.2.2)

/-- CollisionAvoidance.computeForce: accumulate the per-other contribution
    over the list of other positions, starting from (0, 0, 0). -/
noncomputable def computeForce (k ε : ℝ) (p : ℝ × ℝ × ℝ)
    (others : List (ℝ × ℝ × ℝ)) : ℝ × ℝ × ℝ :=
  others.foldl (fun acc q => v3add acc (collisionTerm k ε p q)) (0, 0, 0)

/-- Modelled from the spec (§4.5, amended): the per-other force is the unit
    separation vector `d / ‖d‖` scaled by the magnitude
    `2k‖d‖ / ((‖d‖² + ε) · sqrt(‖d‖² + ε))`. -/
noncomputable def specCollisionTerm (k ε : ℝ) (p q : ℝ × ℝ × ℝ) : ℝ × ℝ × ℝ :=
  let nd := Real.sqrt (rsq p q)
  let m := 2 * k * nd / ((rsq p q + ε) * Real.sqrt (rsq p q + ε))
  (m * ((p.1 - q.1) / nd), m * ((p.2.1 - q.2.1) / nd), m * ((p.2.2 - q.2.2) / nd))

/-- Modelled from the spec (§4.5, amended): sum of the per-other forces. -/
noncomputable def specCollisionForce (k ε : ℝ) (p : ℝ × ℝ × ℝ)
    (others : List (ℝ × ℝ × ℝ)) : ℝ × ℝ × ℝ :=
  others.foldl (fun acc q => v3add acc (specCollisionTerm k ε p q)) (0, 0, 0)

/- ===================== SDEIntegrator (mathUtils.ts) ===================== -/

/-- An SDEIntegrator instance holds only its HashSeededRNG. -/
structure SDEIntegrator where
  rng : RNGState
deriving DecidableEq, Repr

/-- SDEIntegrator.step: optionally re-seed the RNG, draw a 3D standard
    Gaussian, scale it by `sqrt(dt)`, and perform one Euler-Maruyama update
    `position + drift·dt + volatility·scaledNoise`. -/
def SDEIntegrator.step (integ : SDEIntegrator) (jm : JSMath)
    (position drift : ℚ × ℚ × ℚ) (volatility dt : ℚ) (seedOpt : Option ℕ) :
    (ℚ × ℚ × ℚ) × SDEIntegrator :=
  let r0 : RNGState := match seedOpt with
    | some s => ⟨s⟩
    | none => integ.rng
  let pw := r0.nextGaussian3D jm (0, 0, 0) 1
  let sqrtDt := jm.sqrt dt
  let sn : ℚ × ℚ × ℚ := (pw.1.1 * sqrtDt, pw.1.2.1 * sqrtDt, pw.1.2.2 * sqrtDt)
  ((position.1 + drift.1 * dt + volatility * sn.1,
    position.2.1 + drift.2.1 * dt + volatility * sn.2.1,
    position.2.2 + drift.2.2 * dt + volatility * sn.2.2), ⟨pw.2⟩)

/- ===================== FeatureExtractor.computeChroma ===================== -/

/-- Circular pitch-class distance used by computeChroma:
    `dist = min(|i - pitchClass|, 12 - |i - pitchClass|)`. -/
def chromaDist (i pc : ℕ) : ℕ :=
  min ((i : ℤ) - pc).natAbs (12 - ((i : ℤ) - pc).natAbs)

/-- The Gaussian pitch-class weight `exp(-dist² / 2)`. -/
noncomputable def chromaWeight (i pc : ℕ) : ℝ :=
  Real.exp (-((chromaDist i pc : ℝ) * (chromaDist i pc : ℝ)) / 2)

/-- dB-to-linear-energy conversion `10^(mag / 20)` used throughout
    FeatureExtractor. -/
noncomputable def bandEnergy (magDb : ℝ) : ℝ := (10 : ℝ) ^ (magDb / 20)

/-- The pre-normalization chroma vector of computeChroma: entry i is
    `exp(-dist²/2) * energy` where `pitchClass = bandIndex % 12`. -/
noncomputable def chromaRaw (bandIndex : ℕ) (energy : ℝ) : Fin 12 → ℝ :=
  fun i => chromaWeight i (bandIndex % 12) * energy

/-- FeatureExtractor.computeChroma on the band's linear energy: weight the
    energy into all 12 classes, then L1-normalize when the total is
    positive. -/
noncomputable def computeChroma (bandIndex : ℕ) (energy : ℝ) : Fin 12 → ℝ :=
  let c := chromaRaw bandIndex energy
  let s := ∑ i, c i
  if 0 < s then fun i => c i / s else c

/- ===================== CurlNoiseField.evaluate ===================== -/

/-- The fixed finite-difference epsilon of CurlNoiseField.evaluate. -/
def curlEps : ℚ := 1 / 1000

/-- CurlNoiseField.evaluate, parametric in the scalar noise `n` (noise3D at
    the instance's current time, time warp and base frequency, which enter
    only through `n` itself).  Mirrors the code's central differences and
    its +100 / +200 decorrelation offsets exactly, including the
    inconsistent x-offsets of the dN2 samples. -/
def curlEval (n : ℚ → ℚ → ℚ → ℚ) (x y z : ℚ) : ℚ × ℚ × ℚ :=
  let e := curlEps
  let dN1dy := (n x (y + e) z - n x (y - e) z) / (2 * e)
  let dN1dz := (n x y (z + e) - n x y (z - e)) / (2 * e)
  let dN2dx := (n (x + e) (y + 100) (z + 100) - n (x - e) (y + 100) (z + 100)) / (2 * e)
  let dN2dz := (n (x + 100) (y + 100) (z + e + 100) - n (x + 100) (y + 100) (z - e + 100)) / (2 * e)
  let dN3dx := (n (x + e + 200) (y + 200) (z + 200) - n (x - e + 200) (y + 200) (z + 200)) / (2 * e)
  let dN3dy := (n (x + 200) (y + e + 200) (z + 200) - n (x + 200) (y - e + 200) (z + 200)) / (2 * e)
  (dN3dy - dN2dz, dN1dz - dN3dx, dN2dx - dN1dy)

/-- The same evaluate with the evident intended x-offsets for the second
    potential (both dN2 samples taken around x + 100), used to localize the
    offset slip: with this version the discrete divergence vanishes
    identically. -/
def curlEvalConsistent (n : ℚ → ℚ → ℚ → ℚ) (x y z : ℚ) : ℚ × ℚ × ℚ :=
  let e := curlEps
  let dN1dy := (n x (y + e) z - n x (y - e) z) / (2 * e)
  let dN1dz := (n x y (z + e) - n x y (z - e)) / (2 * e)
  let dN2dx := (n (x + e + 100) (y + 100) (z + 100) - n (x - e + 100) (y + 100) (z + 100)) / (2 * e)
  let dN2dz := (n (x + 100) (y + 100) (z + e + 100) - n (x + 100) (y + 100) (z - e + 100)) / (2 * e)
  let dN3dx := (n (x + e + 200) (y + 200) (z + 200) - n (x - e + 200) (y + 200) (z + 200)) / (2 * e)
  let dN3dy := (n (x + 200) (y + e + 200) (z + 200) - n (x + 200) (y - e + 200) (z + 200)) / (2 * e)
  (dN3dy - dN2dz, dN1dz - dN3dx, dN2dx - dN1dy)

/-- Central-difference divergence estimate of a 3D field, using the same
    epsilon the field uses internally (the estimator from the spec's
    testable property). -/
def discreteDiv (F : ℚ → ℚ → ℚ → ℚ × ℚ × ℚ) (x y z : ℚ) : ℚ :=
  let e := curlEps
  ((F (x + e) y z).1 - (F (x - e) y z).1) / (2 * e) +
    ((F x (y + e) z).2.1 - (F x (y - e) z).2.1) / (2 * e) +
    ((F x y (z + e)).2.2 - (F x y (z - e)).2.2) / (2 * e)

/-- The non-cancelling remainder of the discrete divergence of curlEval:
    the mixed second difference (in x and z) of the two differently
    x-offset dN2 sample families. -/
def curlResidual (n : ℚ → ℚ → ℚ → ℚ) (x y z : ℚ) : ℚ :=
  let e := curlEps
  (((n (x + e) (y + 100) (z + e + 100) - n (x - e) (y + 100) (z + e + 100)) / (2 * e) -
      (n (x + e) (y + 100) (z - e + 100) - n (x - e) (y + 100) (z - e + 100)) / (2 * e)) / (2 * e)) -
    (((n (x + e + 100) (y + 100) (z + e + 100) - n (x + e + 100) (y + 100) (z - e + 100)) / (2 * e) -
      (n (x - e + 100) (y + 100) (z + e + 100) - n (x - e + 100) (y + 100) (z - e + 100)) / (2 * e)) / (2 * e))

/- ===================== reset() state models ===================== -/

/-- The mutable fields of a FeatureExtractor instance. -/
structure FEState where
  numBands : ℕ
  previousEnergies : List ℚ
  previousPhases : List ℚ
  fluxHistory : List ℚ
  energyHistory : List ℚ
  timeHistory : List ℚ
  maxHistoryLength : ℕ
  envelopeEMA : List ℚ
  fluxEMA : List ℚ
  centroidEMA : List ℚ
  alphaEMA : ℚ
deriving DecidableEq, Repr

/-- FeatureExtractor.reset: fill the fixed-length typed arrays with zero and
    empty the three history buffers; configuration fields are untouched. -/
def FEState.reset (s : FEState) : FEState :=
  { s with
    previousEnergies := List.replicate s.previousEnergies.length 0
    previousPhases := List.replicate s.previousPhases.length 0
    fluxHistory := []
    energyHistory := []
    timeHistory := []
    envelopeEMA := List.replicate s.envelopeEMA.length 0
    fluxEMA := List.replicate s.fluxEMA.length 0
    centroidEMA := List.replicate s.centroidEMA.length 0 }

/-- The per-band visual/simulation parameter record (VisualParameters). -/
structure VisualParameters where
  thickness : ℚ
  alpha : ℚ
  colorHue : ℚ
  colorChroma : ℚ
  colorLuminance : ℚ
  diffusion : ℚ
  flowFrequency : ℚ
  flowIntensity : ℚ
  lorenzSigma : ℚ
  lorenzRho : ℚ
  lorenzBeta : ℚ
  driftSpeed : ℚ
  turbulence : ℚ
deriving DecidableEq, Repr

/-- The mutable fields of a ParameterMapper instance: the tunable mapping
    coefficients and the per-band smoothing memory. -/
structure PMState where
  kThickness : ℚ
  w0 : ℚ
  alpha0 : ℚ
  alpha1 : ℚ
  kFlowFreq : ℚ
  omega0 : ℚ
  kLorenzSigma : ℚ
  kLorenzRho : ℚ
  kLorenzBeta : ℚ
  smoothingAlpha : ℚ
  previousParams : List (ℕ × VisualParameters)
deriving DecidableEq, Repr

/-- ParameterMapper.reset: clear the previousParams map. -/
def PMState.reset (s : PMState) : PMState := { s with previousParams := [] }

/- ===================== SobolSequence / BandManager ===================== -/

/-- The primitive polynomial coefficient lists for dimensions 1-3. -/
def sobolPolys : List (List ℕ) := [[1], [1, 1], [1, 0, 1]]

/-- One step of the direction-number generation loop: append the next
    direction number computed from the polynomial recurrence. -/
def sobolExtend (poly : List ℕ) (dirs : List ℕ) : List ℕ :=
  let L := poly.length
  let i := dirs.length
  let dir0 := dirs.getD (i - L) 0
  let dir := (List.range L).foldl
    (fun acc j =>
      if 1 ≤ j ∧ poly.getD j 0 = 1 then acc ^^^ (dirs.getD (i - L + j) 0) >>> j
      else acc)
    dir0
  dirs ++ [dir]

/-- SobolSequence.initDirectionNumbers for one dimension: the first
    poly.length entries are `1 << (29 - i)`, the rest follow the
    recurrence, up to maxBits = 30 entries. -/
def sobolDirs (poly : List ℕ) : List ℕ :=
  (List.range (30 - poly.length)).foldl (fun dirs _ => sobolExtend poly dirs)
    ((List.range poly.length).map (fun i => 1 <<< (29 - i)))

/-- Direction numbers of dimension d (`polynomials[d] || [1]`). -/
def sobolDirsFor (d : ℕ) : List ℕ := sobolDirs (sobolPolys.getD d [1])

/-- The Sobol integer value of dimension d at index idx: xor the direction
    numbers selected by the bits of the Gray code of idx. -/
def sobolValue (d idx : ℕ) : ℕ :=
  let gray := idx ^^^ (idx >>> 1)
  (List.range 30).foldl
    (fun value i =>
      if (gray >>> i) % 2 = 1 then value ^^^ (sobolDirsFor d).getD i 0 else value)
    0

/-- The Sobol coordinate in [0, 1]: `value / (1 << maxBits)`. -/
def sobolPointVal (d idx : ℕ) : ℚ := (sobolValue d idx : ℚ) / 1073741824

/-- The mutable state of a SobolSequence: one counter per dimension. -/
structure SobolState where
  currentIndex : List ℕ
deriving DecidableEq, Repr

/-- SobolSequence.next: emit the point at the current per-dimension
    counters and advance every counter by one. -/
def SobolState.next (s : SobolState) : List ℚ × SobolState :=
  (s.currentIndex.enum.map (fun p => sobolPointVal p.1 p.2),
   ⟨s.currentIndex.map (· + 1)⟩)

/-- SobolSequence.reset: `currentIndex.fill(0)` (length preserved). -/
def SobolState.reset (s : SobolState) : SobolState :=
  ⟨List.replicate s.currentIndex.length 0⟩

/-- SobolSequence.mapToCube: map a unit-cube sample to a centered cube. -/
def mapToCube (point : List ℚ) (center : ℚ × ℚ × ℚ) (size : ℚ) : ℚ × ℚ × ℚ :=
  (center.1 + (point.getD 0 0 - 1 / 2) * size,
   center.2.1 + (point.getD 1 0 - 1 / 2) * size,
   center.2.2 + (point.getD 2 0 - 1 / 2) * size)

/-- A band personality: drift-speed bias, base thickness, anisotropy. -/
structure BandPersonality where
  driftSpeed : ℚ
  baseThickness : ℚ
  anisotropy : ℚ × ℚ × ℚ
deriving DecidableEq, Repr

/-- BandManager.getBandPersonality: fixed affine functions of the
    normalized band index. -/
def getBandPersonality (numBands b : ℕ) : BandPersonality :=
  let ni : ℚ := (b : ℚ) / (numBands : ℚ)
  ⟨3 / 10 + ni * (7 / 10), 3 / 10 - ni * (2 / 10), (1, 1, 3 / 2 - ni * (1 / 2))⟩

/-- BandManager.getDefaultParameters from a personality. -/
def getDefaultParameters (p : BandPersonality) : VisualParameters :=
  ⟨p.baseThickness, 1 / 2, 0, 1 / 2, 7 / 10, 1 / 100, 1, 1 / 2, 10, 28, 8 / 3,
    p.driftSpeed, 1 / 2⟩

/-- One band record owned by the BandManager (BandState). -/
structure BandRecord where
  bandIndex : ℕ
  position : ℚ × ℚ × ℚ
  attractor : LorenzAttractor
  initialPosition : ℚ × ℚ × ℚ
  parameters : VisualParameters
  instancesPerBand : ℕ
deriving DecidableEq, Repr

/-- The body of the per-band loop of BandManager.initializeBands: draw one
    Sobol point, map it into the size-2 cube around the origin, seat a
    fresh default-parameter Lorenz attractor there. -/
def makeBand (numBands instancesPerBand b : ℕ) (s : SobolState) :
    BandRecord × SobolState :=
  let p := s.next
  let initialPos := mapToCube p.1 (0, 0, 0) 2
  let attractor : LorenzAttractor :=
    ⟨⟨initialPos.1, initialPos.2.1, initialPos.2.2⟩, ⟨10, 28, 8 / 3⟩, 1 / 100⟩
  (⟨b, initialPos, attractor, initialPos,
      getDefaultParameters (getBandPersonality numBands b), instancesPerBand⟩,
    p.2)

/-- The loop of BandManager.initializeBands, threading the Sobol state. -/
def buildBands (numBands instancesPerBand : ℕ) :
    List ℕ → SobolState → List BandRecord × SobolState
  | [], s => ([], s)
  | b :: bs, s =>
      let p := makeBand numBands instancesPerBand b s
      let rest := buildBands numBands instancesPerBand bs p.2
      (p.1 :: rest.1, rest.2)

/-- The mutable state of a BandManager instance. -/
structure BandManager where
  numBands : ℕ
  instancesPerBand : ℕ
  sobol : SobolState
  bands : List BandRecord
deriving DecidableEq, Repr

/-- BandManager.initializeBands: rebuild this.bands from scratch, drawing
    numBands fresh Sobol points. -/
def BandManager.rebuildBands (bm : BandManager) : BandManager :=
  let p := buildBands bm.numBands bm.instancesPerBand (List.range bm.numBands) bm.sobol
  { bm with bands := p.1, sobol := p.2 }

/-- BandManager.reset: reset the Sobol sequence, then re-initialize all
    bands. -/
def BandManager.reset (bm : BandManager) : BandManager :=
  BandManager.rebuildBands { bm with sobol := bm.sobol.reset }

/- ===================== Theorems ===================== -/

/-- Claim C1: for every fixed seed and every call sequence (any
    interleaving of next, nextRange, nextGaussian, nextGaussian3D), two
    independently constructed HashSeededRNG instances given the identical
    seed and identical call sequence produce bit-identical output
    sequences. -/
theorem rng_determinism (jm : JSMath) (s1 s2 : RNGState)
    (cs1 cs2 : List RNGCall) (hseed : s1.seed = s2.seed)
    (hcalls : cs1 = cs2) : s1.run jm cs1 = s2.run jm cs2 := by
  cases s1
  cases s2
  cases hseed
  cases hcalls
  rfl

/-- Witness for C1 at seed 123 and a four-call interleaving. -/
theorem rng_determinism_witness :
    (RNGState.mk 123).seed = (RNGState.mk 123).seed ∧
      RNGState.run ⟨123⟩ jmDefault
          [RNGCall.nextU, RNGCall.gaussian 0 1, RNGCall.range 2 5,
            RNGCall.gaussian3D (0, 0, 0) 1] =
        RNGState.run ⟨123⟩ jmDefault
          [RNGCall.nextU, RNGCall.gaussian 0 1, RNGCall.range 2 5,
            RNGCall.gaussian3D (0, 0, 0) 1] :=
  ⟨rfl, rng_determinism jmDefault ⟨123⟩ ⟨123⟩ _ _ rfl rfl⟩

/-- Claim C5 (code bug): the seed 653637408 is reachable (any 32-bit value
    can be installed by the constructor or setSeed), and from it next()
    returns exactly 1, because the freshly advanced 32-bit state is
    0xFFFFFFFF and the code divides by 0xFFFFFFFF rather than 2^32; so the
    documented half-open range [0, 1) is violated. -/
theorem next_returns_one :
    ((RNGState.mk 653637408).next).1 = 1 ∧
      ¬ ((RNGState.mk 653637408).next).1 < 1 := by
  have h : ((RNGState.mk 653637408).next).1 = 1 := by
    show (lcgNext 653637408 : ℚ) / 4294967295 = 1
    norm_num [lcgNext]
  exact ⟨h, by rw [h]; exact lt_irrefl 1⟩

/-- Claim C3 counterexample: after one default step from (1,1,1) the z
    component is exactly 59/60 ≈ 0.9833, which is not within 0.01 of the
    spec's claimed 1.01 (the forward-Euler value the spec was supposed to
    quote). -/
theorem lorenz_step_z_counterexample :
    ((LorenzAttractor.default.step none).1).z = 59 / 60 ∧
      ¬ |(59 : ℚ) / 60 - 101 / 100| ≤ 1 / 100 := by
  constructor
  · norm_num [LorenzAttractor.default, LorenzAttractor.step, lorenzRate]
  · rw [not_le, abs_sub_comm,
      abs_of_nonneg (by norm_num : (0 : ℚ) ≤ 101 / 100 - 59 / 60)]
    norm_num

/-- Claim C3 amended: with the constructor defaults (state (1,1,1),
    σ = 10, ρ = 28, β = 8/3, dt = 0.01) the first-step x-derivative
    σ(y − x) is exactly 0, and one step() yields exactly
    (1, 1.26, 59/60 ≈ 0.9833): each component is one forward-Euler
    increment of the rate equations evaluated at (1,1,1). -/
theorem lorenz_step_scenario :
    (LorenzAttractor.default.step none).1 = ⟨1, 63 / 50, 59 / 60⟩ ∧
      (lorenzRate LorenzAttractor.default.params
          LorenzAttractor.default.state).1 = 0 := by
  constructor
  · simp only [LorenzAttractor.default, LorenzAttractor.step, lorenzRate,
      AttractorState.mk.injEq]
    norm_num
  · norm_num [LorenzAttractor.default, lorenzRate]

/-- Claim C9: getDrift, with or without a parameter override, leaves the
    attractor's 3D state untouched and returns the instantaneous rate
    vector of the (possibly merged) parameters at the current state. -/
theorem getDrift_preserves_state (a : LorenzAttractor)
    (o : Option LorenzOverride) :
    ((a.getDrift o).2).state = a.state ∧
      (a.getDrift o).1 = lorenzRate ((a.getDrift o).2).params a.state := by
  cases o <;> exact ⟨rfl, rfl⟩

/-- Claim C6: for every position, drift, non-negative volatility, optional
    re-seed and internal RNG state, one Euler-Maruyama step with dt = 0
    returns exactly position + drift·dt, i.e. the input position: the
    diffusion term vanishes because the Gaussian increment is scaled by
    sqrt(0) = 0. -/
theorem sde_step_dt_zero (jm : JSMath) (integ : SDEIntegrator)
    (position drift : ℚ × ℚ × ℚ) (volatility : ℚ) (seedOpt : Option ℕ)
    (hvol : 0 ≤ volatility) :
    (integ.step jm position drift volatility 0 seedOpt).1 = position := by
  cases seedOpt <;>
    simp [SDEIntegrator.step, jm.sqrt_zero]

/-- Witness for C6 at a concrete state, position, drift and volatility 1. -/
theorem sde_step_dt_zero_witness :
    (0 : ℚ) ≤ 1 ∧
      ((SDEIntegrator.mk ⟨7⟩).step jmDefault (1, 2, 3) (4, 5, 6) 1 0
          none).1 = (1, 2, 3) :=
  ⟨by norm_num,
    sde_step_dt_zero jmDefault ⟨⟨7⟩⟩ (1, 2, 3) (4, 5, 6) 1 none (by norm_num)⟩

/-- Threading the Sobol state through the band-building loop never changes
    the number of per-dimension counters. -/
theorem buildBands_sobol_length (numBands instancesPerBand : ℕ)
    (bs : List ℕ) (s : SobolState) :
    ((buildBands numBands instancesPerBand bs s).2).currentIndex.length =
      s.currentIndex.length := by
  induction bs generalizing s with
  | nil => rfl
  | cons b bs ih =>
      simp only [buildBands]
      rw [ih]
      simp [makeBand, SobolState.next]

/-- Claim C8: reset() on the FeatureExtractor, the ParameterMapper and the
    BandManager is idempotent: calling it twice in a row leaves exactly the
    state reached by calling it once. -/
theorem reset_idempotent (fe : FEState) (pm : PMState) (bm : BandManager) :
    fe.reset.reset = fe.reset ∧ pm.reset.reset = pm.reset ∧
      bm.reset.reset = bm.reset := by
  refine ⟨?_, rfl, ?_⟩
  · simp [FEState.reset]
  · simp only [BandManager.reset, BandManager.rebuildBands, SobolState.reset]
    simp [buildBands_sobol_length]

/-- Claim C10: the collision-avoidance force between two positions is
    antisymmetric (for every pair of positions, including coincident ones),
    and the force computed against an empty list of others is exactly
    (0,0,0). -/
theorem collision_force_antisymm (k ε : ℝ) (p q : ℝ × ℝ × ℝ) :
    computeForce k ε p [q] = v3neg (computeForce k ε q [p]) ∧
      computeForce k ε p [] = (0, 0, 0) := by
  constructor
  · have hr : rsq q p = rsq p q := by simp only [rsq]; ring
    simp only [computeForce, List.foldl, collisionTerm, v3add, v3neg, hr,
      Prod.mk.injEq]
    refine ⟨by ring, by ring, by ring⟩
  · rfl

/-- Claim C7: for every band index and every non-negative band energy, the
    12 chroma values computed by computeChroma are non-negative, they sum
    to exactly 1 whenever the energy is non-zero, and they sum to 0 when
    the energy is 0; moreover the linear energy 10^(dB/20) the extractor
    feeds in is strictly positive for every finite dB magnitude. -/
theorem chroma_distribution (b : ℕ) (e : ℝ) (h : 0 ≤ e) :
    (∀ i, 0 ≤ computeChroma b e i) ∧
      (e ≠ 0 → ∑ i, computeChroma b e i = 1) ∧
      (e = 0 → ∑ i, computeChroma b e i = 0) ∧
      (∀ magDb : ℝ, 0 < bandEnergy magDb) := by
  have wpos : ∀ i : Fin 12, 0 < chromaWeight i (b % 12) := fun i =>
    Real.exp_pos _
  have rawnn : ∀ i : Fin 12, 0 ≤ chromaRaw b e i := fun i =>
    mul_nonneg (wpos i).le h
  refine ⟨?_, ?_, ?_, fun m => Real.rpow_pos_of_pos (by norm_num) _⟩
  · intro i
    by_cases hs : 0 < ∑ j : Fin 12, chromaRaw b e j
    · simp only [computeChroma, if_pos hs]
      exact div_nonneg (rawnn i) hs.le
    · simp only [computeChroma, if_neg hs]
      exact rawnn i
  · intro he
    have hepos : 0 < e := h.lt_of_ne (Ne.symm he)
    have hs : 0 < ∑ j : Fin 12, chromaRaw b e j :=
      Finset.sum_pos (fun j _ => mul_pos (wpos j) hepos) Finset.univ_nonempty
    simp only [computeChroma, if_pos hs]
    rw [← Finset.sum_div]
    exact div_self hs.ne'
  · intro he
    subst he
    simp [computeChroma, chromaRaw]

/-- Witness for C7 at band 0 and energy 1. -/
theorem chroma_distribution_witness :
    (0 : ℝ) ≤ 1 ∧ (∀ i, 0 ≤ computeChroma 0 1 i) :=
  ⟨by norm_num, (chroma_distribution 0 1 (by norm_num)).1⟩

/-- Claim C4 (code bug): for every scalar noise function, the divergence of
    the evaluated curl field, estimated by central differences at the same
    epsilon the field uses internally, equals exactly the mixed second
    difference left over by the mismatched x-offsets of the two dN2 sample
    families (all other contributions cancel); with consistent offsets the
    same estimate is identically zero; and the residual evaluates to −200
    (far beyond any 1e-2 tolerance of 0) already for the smooth potential
    n(x,y,z) = x²z at the origin. -/
theorem curl_divergence_bug :
    (∀ n : ℚ → ℚ → ℚ → ℚ, ∀ x y z : ℚ,
        discreteDiv (curlEval n) x y z = curlResidual n x y z) ∧
      (∀ n : ℚ → ℚ → ℚ → ℚ, ∀ x y z : ℚ,
        discreteDiv (curlEvalConsistent n) x y z = 0) ∧
      curlResidual (fun a _ c => a * a * c) 0 0 0 = -200 := by
  refine ⟨fun n x y z => ?_, fun n x y z => ?_, ?_⟩
  · simp only [discreteDiv, curlEval, curlResidual, curlEps]
    ring_nf
  · simp only [discreteDiv, curlEvalConsistent, curlEps]
    ring_nf
  · norm_num [curlResidual, curlEps]

/-- The squared separation is non-negative. -/
theorem rsq_nonneg (p q : ℝ × ℝ × ℝ) : 0 ≤ rsq p q := by
  simp only [rsq]
  have h1 := mul_self_nonneg (p.1 - q.1)
  have h2 := mul_self_nonneg (p.2.1 - q.2.1)
  have h3 := mul_self_nonneg (p.2.2 - q.2.2)
  linarith

/-- Per-other equality between the implemented collision contribution and
    the amended spec formula (unit separation vector scaled by
    2k‖d‖/((‖d‖²+ε)·sqrt(‖d‖²+ε))). -/
theorem collisionTerm_eq_spec (k ε : ℝ) (hε : 0 < ε) (p q : ℝ × ℝ × ℝ) :
    collisionTerm k ε p q = specCollisionTerm k ε p q := by
  have hQpos : 0 < rsq p q + ε := by
    have := rsq_nonneg p q
    linarith
  have hSpos : 0 < Real.sqrt (rsq p q + ε) := Real.sqrt_pos.mpr hQpos
  by_cases h0 : rsq p q = 0
  · have h0' := h0
    simp only [rsq] at h0'
    have h1 : (p.1 - q.1) * (p.1 - q.1) = 0 := by
      nlinarith [mul_self_nonneg (p.2.1 - q.2.1), mul_self_nonneg (p.2.2 - q.2.2),
        mul_self_nonneg (p.1 - q.1)]
    have h2 : (p.2.1 - q.2.1) * (p.2.1 - q.2.1) = 0 := by
      nlinarith [mul_self_nonneg (p.1 - q.1), mul_self_nonneg (p.2.2 - q.2.2),
        mul_self_nonneg (p.2.1 - q.2.1)]
    have h3 : (p.2.2 - q.2.2) * (p.2.2 - q.2.2) = 0 := by
      nlinarith [mul_self_nonneg (p.1 - q.1), mul_self_nonneg (p.2.1 - q.2.1),
        mul_self_nonneg (p.2.2 - q.2.2)]
    have ha := mul_self_eq_zero.mp h1
    have hb := mul_self_eq_zero.mp h2
    have hc := mul_self_eq_zero.mp h3
    simp [collisionTerm, specCollisionTerm, h0, ha, hb, hc]
  · have hd2 : 0 < rsq p q := (rsq_nonneg p q).lt_of_ne (Ne.symm h0)
    have hnd : 0 < Real.sqrt (rsq p q) := Real.sqrt_pos.mpr hd2
    simp only [collisionTerm, specCollisionTerm, Prod.mk.injEq]
    refine ⟨?_, ?_, ?_⟩ <;>
      · field_simp
        ring

/-- The implemented force equals the amended spec force for every list of
    other positions (fold-level refinement). -/
theorem computeForce_eq_spec (k ε : ℝ) (hε : 0 < ε) (p : ℝ × ℝ × ℝ)
    (others : List (ℝ × ℝ × ℝ)) :
    computeForce k ε p others = specCollisionForce k ε p others := by
  simp only [computeForce, specCollisionForce]
  suffices h : ∀ (l : List (ℝ × ℝ × ℝ)) (acc : ℝ × ℝ × ℝ),
      l.foldl (fun a q => v3add a (collisionTerm k ε p q)) acc =
        l.foldl (fun a q => v3add a (specCollisionTerm k ε p q)) acc from
    h others (0, 0, 0)
  intro l
  induction l with
  | nil => intro acc; rfl
  | cons q l ih =>
      intro acc
      simp only [List.foldl]
      rw [collisionTerm_eq_spec k ε hε p q]
      exact ih _

/-- Claim C2 counterexample: at the spec's own scenario (k = 0.1,
    ε = 0.01, position (0,0,0), single other at (1,0,0)) the returned
    force is not the vector of magnitude 2k/(r²+ε) toward −x, because the
    code normalizes the direction by sqrt(r²+ε) rather than by r. -/
theorem collision_force_claim_counterexample :
    computeForce (1 / 10) (1 / 100) (0, 0, 0) [(1, 0, 0)] ≠
      (-(2 * (1 / 10) / (1 + 1 / 100)), 0, 0) := by
  intro hEq
  have h1 := congrArg Prod.fst hEq
  simp only [computeForce, List.foldl, collisionTerm, v3add, rsq] at h1
  norm_num at h1
  field_simp at h1
  have h100 : Real.sqrt (100 : ℝ) = 10 := by
    rw [show (100 : ℝ) = 10 ^ 2 by norm_num]
    exact Real.sqrt_sq (by norm_num)
  have h101 : Real.sqrt (101 : ℝ) ≠ 10 := by
    intro h
    have h2 := Real.sq_sqrt (by norm_num : (0 : ℝ) ≤ 101)
    rw [h] at h2
    norm_num at h2
  rw [h100] at h1
  have h3 : Real.sqrt (101 : ℝ) = 10 := by linarith
  exact h101 h3

/-- Claim C2 amended: for every strength, every positive smoothing ε,
    every position and every list of others, computeForce returns the sum
    over the others of a force along the separation vector whose magnitude
    is 2k·r/(r²+ε)^(3/2) with r the Euclidean distance (the code divides
    the direction by sqrt(r²+ε), not by r); in the k = 0.1, ε = 0.01
    scenario with a single other at (1,0,0) the force is exactly
    (−(20/101)/sqrt(1.01), 0, 0): directed toward −x with magnitude
    strictly between 0.197 and 0.198 (≈ 0.19704, not 0.198). -/
theorem collision_force_amended :
    (∀ k ε : ℝ, 0 < ε → ∀ p : ℝ × ℝ × ℝ, ∀ others : List (ℝ × ℝ × ℝ),
        computeForce k ε p others = specCollisionForce k ε p others) ∧
      computeForce (1 / 10) (1 / 100) (0, 0, 0) [(1, 0, 0)] =
        (-(20 / 101 / Real.sqrt (101 / 100)), 0, 0) ∧
      (197 / 1000 : ℝ) < 20 / 101 / Real.sqrt (101 / 100) ∧
      (20 / 101 : ℝ) / Real.sqrt (101 / 100) < 198 / 1000 := by
  have hs0 : (0 : ℝ) ≤ 101 / 100 := by norm_num
  have hS := Real.sq_sqrt hs0
  have hSpos : 0 < Real.sqrt (101 / 100 : ℝ) := Real.sqrt_pos.mpr (by norm_num)
  have hlow : (1004 / 1000 : ℝ) < Real.sqrt (101 / 100) := by
    nlinarith [hS, hSpos.le]
  have hhigh : Real.sqrt (101 / 100 : ℝ) < 1005 / 1000 := by
    nlinarith [hS, hSpos.le]
  refine ⟨fun k ε hε p others => computeForce_eq_spec k ε hε p others, ?_, ?_, ?_⟩
  · simp only [computeForce, List.foldl, collisionTerm, v3add, rsq,
      Prod.mk.injEq]
    norm_num
    ring
  · rw [lt_div_iff hSpos]
    nlinarith [hhigh]
  · rw [div_lt_iff hSpos]
    nlinarith [hlow]

/-- Witness for C2's amended refinement at k = 0.1, ε = 0.01, the spec's
    scenario position and single other. -/
theorem collision_force_amended_witness :
    (0 : ℝ) < 1 / 100 ∧
      computeForce (1 / 10) (1 / 100) (0, 0, 0) [(1, 0, 0)] =
        specCollisionForce (1 / 10) (1 / 100) (0, 0, 0) [(1, 0, 0)] :=
  ⟨by norm_num,
    collision_force_amended.1 (1 / 10) (1 / 100) (by norm_num) (0, 0, 0)
      [(1, 0, 0)]⟩

end Wavelength
